import Mathlib

/-!
Verification of the jusi_device_wss signaling server.

This file gives a shallow embedding of the device-session registry, the
liveness monitor and the message-dispatch pipeline of the repository, and
proves (or refutes) the behavioural claims stated about them.

The repository contains several superseded revisions of the connection
manager and message handler.  Following the design notes, the embedding
models the single-key-per-device variant: `connection_manager.py`
(class ConnectionManager keyed by plain device id) together with
`drift_message_handler.py` (functions handle_device_message,
handle_notify_message, handle_device_control, handle_device_info,
get_rtmp_address, get_screen_address, handle_power_off), plus the
pydantic models of `models.py` and the settings of `config.py`.

Python dictionaries are modelled as association lists over String keys;
timestamps (datetime values) are modelled as Int seconds so that the
monitor's subtraction and comparison against a seconds threshold is exact.
A Python function that can let an exception escape is modelled with an
explicit exception slot in its result; exceptions that the source catches
locally never reach that slot.
-/

namespace DriftWss

/-- Association-list lookup, modelling Python dict access `d[k]` /
`d.get(k)`: the first binding of the key wins. -/
def lookupA {α : Type} (k : String) : List (String × α) → Option α
  | [] => none
  | (k2, v) :: rest => if k2 = k then some v else lookupA k rest

/-- Modelling Python `del d[k]` (guarded by membership in the source, so
removing an absent key is a no-op): drop every binding of the key. -/
def eraseA {α : Type} (k : String) : List (String × α) → List (String × α)
  | [] => []
  | p :: rest => if p.1 = k then eraseA k rest else p :: eraseA k rest

/-- Modelling Python dict assignment `d[k] = v`: the key is bound to `v`
and any previous binding is superseded. -/
def insertA {α : Type} (k : String) (v : α) (l : List (String × α)) : List (String × α) :=
  (k, v) :: eraseA k l

/-- Modelling in-place mutation of the value stored under a key
(`d[k].field = ...` in the source): every binding of the key is updated,
other bindings are untouched. -/
def updateA {α : Type} (k : String) (f : α → α) : List (String × α) → List (String × α)
  | [] => []
  | p :: rest =>
    if p.1 = k then (p.1, f p.2) :: updateA k f rest else p :: updateA k f rest

/-- The part of `config.py` Settings the modelled core reads.
`heartbeat_timeout` defaults to 180 seconds as in the source. -/
structure Settings where
  video_rtmp_host : String
  video_rtmp_port : Int
  host : String := "0.0.0.0"
  heartbeat_timeout : Int := 180

/-- models.py DeviceInfo: the device's self-reported configuration
snapshot.  Field defaults are exactly the pydantic Field defaults of the
source.  The source declares no field validator on this model. -/
structure DeviceInfo where
  no : String := ""
  dzoom : Int := 1
  rtmp : String := "stop"
  rtmp_url : String := ""
  rtsp : String := "stop"
  rtsp_url : String := ""
  record : String := "stop"
  stream_res : String := "720P"
  stream_bitrate : Int := 2000000
  stream_framerate : Int := 30
  led : Int := 0
  exposure : Int := 1
  filter : Int := 0
  mic_sensitivity : Int := 3
  fov : Int := 140
deriving DecidableEq

/-- A raw `data` payload as received in a message: each DeviceInfo field
is either present with a well-typed value or absent.  An empty payload
(the pydantic default for a missing `data` key) has every field absent. -/
structure RawDeviceInfo where
  no? : Option String := none
  dzoom? : Option Int := none
  rtmp? : Option String := none
  rtmp_url? : Option String := none
  rtsp? : Option String := none
  rtsp_url? : Option String := none
  record? : Option String := none
  stream_res? : Option String := none
  stream_bitrate? : Option Int := none
  stream_framerate? : Option Int := none
  led? : Option Int := none
  exposure? : Option Int := none
  filter? : Option Int := none
  mic_sensitivity? : Option Int := none
  fov? : Option Int := none
deriving DecidableEq

/-- Constructing `DeviceInfo(**message.data)` in the source: pydantic
fills defaults for absent fields.  Since models.py declares no validator
on DeviceInfo and no constraint on any Field (in particular none on
`stream_bitrate` or `stream_res`), construction from a well-typed payload
always succeeds; the error side of the result is never produced. -/
def parseDeviceInfo (r : RawDeviceInfo) : Except String DeviceInfo :=
  .ok
    { no := r.no?.getD ""
      dzoom := r.dzoom?.getD 1
      rtmp := r.rtmp?.getD "stop"
      rtmp_url := r.rtmp_url?.getD ""
      rtsp := r.rtsp?.getD "stop"
      rtsp_url := r.rtsp_url?.getD ""
      record := r.record?.getD "stop"
      stream_res := r.stream_res?.getD "720P"
      stream_bitrate := r.stream_bitrate?.getD 2000000
      stream_framerate := r.stream_framerate?.getD 30
      led := r.led?.getD 0
      exposure := r.exposure?.getD 1
      filter := r.filter?.getD 0
      mic_sensitivity := r.mic_sensitivity?.getD 3
      fov := r.fov?.getD 140 }

/-- models.py DriftMsgType. -/
inductive DriftMsgType
  | D2S_NOTIFY
  | D2S_DEVICE_CONTROL
  | S2D_CONTROL
  | S2D_DEVICE_NOTIFY
  | S2D_MESSAGE
deriving DecidableEq

/-- The wire strings of DriftMsgType, as in the source enum. -/
def driftMsgTypeOfString (s : String) : Option DriftMsgType :=
  if s = "notify" then some .D2S_NOTIFY
  else if s = "device_control" then some .D2S_DEVICE_CONTROL
  else if s = "control" then some .S2D_CONTROL
  else if s = "device_notify" then some .S2D_DEVICE_NOTIFY
  else if s = "message" then some .S2D_MESSAGE
  else none

/-- models.py DriftEvent. -/
inductive DriftEvent
  | JOIN
  | DEVICE_JOIN
  | DEVICE_INFO
  | POWER_OFF
  | GET_RTMP
  | GET_SCREEN
  | START_RTMP
  | STOP_RTMP
  | START_RTSP
  | STOP_RTSP
  | START_RECORD
  | STOP_RECORD
  | DZOOM
  | STREAM_RES
  | STREAM_BITRATE
  | STREAM_FRAMERATE
  | LED
  | EXPOSURE
  | FILTER
  | MIC_SENSITIVITY
  | FOV
  | SCREEN
deriving DecidableEq

/-- The wire strings of DriftEvent, as in the source enum. -/
def driftEventOfString (s : String) : Option DriftEvent :=
  if s = "join" then some .JOIN
  else if s = "device_join" then some .DEVICE_JOIN
  else if s = "device_info" then some .DEVICE_INFO
  else if s = "power_off" then some .POWER_OFF
  else if s = "get_rtmp" then some .GET_RTMP
  else if s = "get_screen" then some .GET_SCREEN
  else if s = "start_rtmp" then some .START_RTMP
  else if s = "stop_rtmp" then some .STOP_RTMP
  else if s = "start_rtsp" then some .START_RTSP
  else if s = "stop_rtsp" then some .STOP_RTSP
  else if s = "start_record" then some .START_RECORD
  else if s = "stop_record" then some .STOP_RECORD
  else if s = "dzoom" then some .DZOOM
  else if s = "stream_res" then some .STREAM_RES
  else if s = "stream_bitrate" then some .STREAM_BITRATE
  else if s = "stream_framerate" then some .STREAM_FRAMERATE
  else if s = "led" then some .LED
  else if s = "exposure" then some .EXPOSURE
  else if s = "filter" then some .FILTER
  else if s = "mic_sensitivity" then some .MIC_SENSITIVITY
  else if s = "fov" then some .FOV
  else if s = "screen" then some .SCREEN
  else none

/-- models.py DriftMessage.validate_device_id: the pydantic field
validator raises (here: returns an error) exactly when the value is
truthy (non-empty) and its length differs from 32. -/
def validate_device_id (v : String) : Except String String :=
  if v ≠ "" ∧ v.length ≠ 32 then .error "device id must be a 32 char string"
  else .ok v

/-- A raw inbound JSON object, at the granularity the handlers read it:
`type` and `event` may be absent or carry an arbitrary string; `deviceId`,
`playId` and `code` fall back to the pydantic defaults when absent; `data`
is a raw device-info-shaped payload (absent meaning the default empty
dict). -/
structure RawMessage where
  type? : Option String := none
  event? : Option String := none
  deviceId : String := ""
  playId : String := ""
  data? : Option RawDeviceInfo := none
  code : Int := 0
deriving DecidableEq

/-- A validated models.py DriftMessage. -/
structure DriftMessage where
  type : DriftMsgType
  event : DriftEvent
  deviceId : String := ""
  playId : String := ""
  data : RawDeviceInfo := {}
  code : Int := 0
deriving DecidableEq

/-- Constructing `DriftMessage(**message_data)`: pydantic requires the
`type` and `event` discriminators to be present and to be members of the
respective enums, and runs validate_device_id on `deviceId`.  Any failure
raises a ValidationError (the error side here). -/
def parseDriftMessage (r : RawMessage) : Except String DriftMessage :=
  match r.type? with
  | none => .error "missing type"
  | some ts =>
    match driftMsgTypeOfString ts with
    | none => .error "invalid type"
    | some t =>
      match r.event? with
      | none => .error "missing event"
      | some es =>
        match driftEventOfString es with
        | none => .error "invalid event"
        | some e =>
          match validate_device_id r.deviceId with
          | .error msg => .error msg
          | .ok did =>
            .ok { type := t, event := e, deviceId := did, playId := r.playId
                  data := r.data?.getD {}, code := r.code }

/-- A WebSocket transport handle, at the granularity the connection
manager observes it: the two FastAPI state flags the source checks before
closing, plus oracles saying whether the underlying close / send call
would raise (so that theorems quantify over every possible transport
behaviour). -/
structure WS where
  clientDisconnected : Bool := false
  appDisconnected : Bool := false
  closeFails : Bool := false
  sendFails : Bool := false
deriving DecidableEq

/-- models.py DeviceStatus, as populated by connection_manager.connect:
device id, optional device info (initially absent), connection time and
last-heartbeat time. -/
structure DeviceStatusR where
  device_id : String := ""
  device_info : Option DeviceInfo := none
  connection_time : Int := 0
  last_heartbeat : Int := 0
deriving DecidableEq

/-- The mutable state of connection_manager.ConnectionManager: the
`active_connections` dict (device id to WebSocket) and the
`device_status` dict (device id to DeviceStatus). -/
structure CMState where
  active_connections : List (String × WS) := []
  device_status : List (String × DeviceStatusR) := []
deriving DecidableEq

/-- ConnectionManager.__init__: both dicts start empty. -/
def initState : CMState := {}

/-- ConnectionManager._cleanup_connection: remove the key from
`active_connections` and from `device_status` (each deletion guarded by a
membership test in the source, so deleting an absent key is a no-op —
unconditional erasure has the same effect).  This function performs only
guarded dict deletions and logging and can raise nothing. -/
def cleanupConnection (st : CMState) (cid : String) : CMState :=
  { active_connections := eraseA cid st.active_connections
    device_status := eraseA cid st.device_status }

/-- Result of ConnectionManager.disconnect: the new registry state,
whether a transport close was issued, and the exception escaping the
call, if any. -/
structure DisconnectRes where
  st : CMState
  closeIssued : Bool
  exn : Option String
deriving DecidableEq

/-- ConnectionManager.disconnect: if the key is absent from
`active_connections` the whole body is skipped (no close, no cleanup).
Otherwise the source closes the websocket inside a try block unless
either state flag already reports DISCONNECTED — an exception from the
close call (`ws.closeFails`) is caught and logged — and the finally
clause runs `_cleanup_connection` in every case, so no exception ever
escapes disconnect. -/
def disconnect (st : CMState) (cid : String) : DisconnectRes :=
  match lookupA cid st.active_connections with
  | some ws =>
    { st := cleanupConnection st cid
      closeIssued := !ws.clientDisconnected && !ws.appDisconnected
      exn := none }
  | none => { st := st, closeIssued := false, exn := none }

/-- ConnectionManager.send_message: if the key is in
`active_connections`, try to send; a failing send (`ws.sendFails`) is
caught and triggers disconnect, and the function then returns False.
Absent key: return False without touching the state.  (The message body
itself does not affect the registry, so it is not a parameter.) -/
def send_message (st : CMState) (cid : String) : CMState × Bool :=
  match lookupA cid st.active_connections with
  | some ws =>
    if ws.sendFails then ((disconnect st cid).st, false)
    else (st, true)
  | none => (st, false)

/-- ConnectionManager.connect: accept the transport (external), store the
websocket under the device id, store a fresh DeviceStatus whose
connection and heartbeat times are now and whose device_info is absent,
then send the join confirmation via send_message (whose failure path
disconnects the fresh session). -/
def connect (st : CMState) (ws : WS) (device_id : String) (now : Int) : CMState :=
  let st1 : CMState :=
    { active_connections := insertA device_id ws st.active_connections
      device_status :=
        insertA device_id
          { device_id := device_id, device_info := none
            connection_time := now, last_heartbeat := now }
          st.device_status }
  (send_message st1 device_id).1

/-- ConnectionManager.update_heartbeat: if the key is registered, set its
last_heartbeat to now; otherwise do nothing. -/
def update_heartbeat (st : CMState) (cid : String) (now : Int) : CMState :=
  match lookupA cid st.device_status with
  | some _ =>
    { st with device_status :=
        updateA cid (fun ds => { ds with last_heartbeat := now }) st.device_status }
  | none => st

/-- ConnectionManager.update_device_info: if the key is registered,
replace the stored device_info wholesale with the reported one; otherwise
do nothing. -/
def update_device_info (st : CMState) (cid : String) (info : DeviceInfo) : CMState :=
  match lookupA cid st.device_status with
  | some _ =>
    { st with device_status :=
        updateA cid (fun ds => { ds with device_info := some info }) st.device_status }
  | none => st

/-- ConnectionManager.get_device_info: the stored device_info of a
registered key, none when the key is absent or no info was ever
reported. -/
def get_device_info (st : CMState) (cid : String) : Option DeviceInfo :=
  match lookupA cid st.device_status with
  | some ds => ds.device_info
  | none => none

/-- The scan phase of ConnectionManager._monitor_heartbeats: iterate over
a snapshot of `device_status` and collect the ids whose heartbeat delta
strictly exceeds the configured timeout.  (The source guards with
`if status.last_heartbeat:`, which is always true for the datetime values
the manager stores, so the guard is vacuous.)  The scan performs only
arithmetic and list building and cannot raise. -/
def collectTimeouts (cfg : Settings) (now : Int) :
    List (String × DeviceStatusR) → List String
  | [] => []
  | p :: rest =>
    if now - p.2.last_heartbeat > cfg.heartbeat_timeout then
      p.1 :: collectTimeouts cfg now rest
    else collectTimeouts cfg now rest

/-- The eviction phase of ConnectionManager._monitor_heartbeats: call
disconnect on each collected id in order.  An exception escaping one
disconnect would abort the remaining evictions and kill the monitor task,
so it is propagated here; the theorems show this never happens. -/
def evictLoop : CMState → List String → CMState × Option String
  | st, [] => (st, none)
  | st, d :: rest =>
    match (disconnect st d).exn with
    | some e => ((disconnect st d).st, some e)
    | none => evictLoop (disconnect st d).st rest

/-- Result of one monitor tick: the registry state afterwards, the list
of ids marked for eviction during the scan, and the exception escaping
the tick, if any. -/
structure TickRes where
  st : CMState
  marked : List String
  exn : Option String
deriving DecidableEq

/-- One tick of ConnectionManager._monitor_heartbeats: first the scan
over all sessions collects the timed-out ids, and only after the scan has
completed does the eviction loop disconnect them. -/
def monitorTick (cfg : Settings) (now : Int) (st : CMState) : TickRes :=
  let marked := collectTimeouts cfg now st.device_status
  let r := evictLoop st marked
  { st := r.1, marked := marked, exn := r.2 }

/-- The payload of an outbound reply envelope, by branch of the dispatch
table. -/
inductive ReplyData
  | empty
  | rtmp (rtmp_url : String) (stream_res : String)
      (stream_bitrate : Int) (stream_framerate : Int)
  | screen (screenName : String) (deviceId : String) (url : String)
      (fileBase64 : String)
deriving DecidableEq

/-- An outbound reply envelope (the model_dump of the DriftMessage the
handlers build). -/
structure Envelope where
  type : DriftMsgType
  event : DriftEvent
  deviceId : String := ""
  playId : String := ""
  code : Int := 0
  data : ReplyData := .empty
deriving DecidableEq

/-- What a handler invocation produces towards the transport loop: a
reply envelope, no reply (Python None), or an exception escaping the
handler. -/
inductive DispatchOutcome
  | reply (e : Envelope)
  | noReply
  | raised (err : String)
deriving DecidableEq

/-- The failure envelope every error branch of drift_message_handler.py
builds: type message, the triggering event, the triggering deviceId and
playId, code -1, empty data. -/
def errEnvelope (m : DriftMessage) : Envelope :=
  { type := .S2D_MESSAGE, event := m.event, deviceId := m.deviceId
    playId := m.playId, code := -1, data := .empty }

/-- drift_message_handler.handle_device_info: construct DeviceInfo from
the message data; on success replace the stored info via
update_device_info and reply type device_notify with code 0; an exception
from construction is caught and answered with the code -1 envelope. -/
def handle_device_info (st : CMState) (cid : String) (m : DriftMessage) :
    CMState × DispatchOutcome :=
  match parseDeviceInfo m.data with
  | .ok info =>
    (update_device_info st cid info,
      .reply { type := .S2D_DEVICE_NOTIFY, event := m.event
               deviceId := m.deviceId, playId := m.playId, code := 0
               data := .empty })
  | .error _ => (st, .reply (errEnvelope m))

/-- drift_message_handler.get_rtmp_address: compose the stream URL from
the configured media host and port and the session key; then read the
session's device info — when it is absent (session unknown, or session
registered but with no prior device_info report) the source raises a
ValueError which its own except block converts into the code -1
envelope.  When info is present the reply carries its stream parameters
with code 0.  (The fallback defaults written inline in the source are
unreachable, because the branch requires the info to be present.) -/
def get_rtmp_address (cfg : Settings) (st : CMState) (cid : String)
    (m : DriftMessage) : DispatchOutcome :=
  let rtmp_url :=
    "rtmp://" ++ cfg.video_rtmp_host ++ ":" ++ toString cfg.video_rtmp_port
      ++ "/live/" ++ cid
  match get_device_info st cid with
  | none => .reply (errEnvelope m)
  | some di =>
    .reply { type := .S2D_DEVICE_NOTIFY, event := m.event
             deviceId := m.deviceId, playId := m.playId, code := 0
             data := .rtmp rtmp_url di.stream_res di.stream_bitrate
               di.stream_framerate }

/-- drift_message_handler.get_screen_address: look the session up
directly in the device_status dict; absent raises a ValueError converted
by the except block into the code -1 envelope; present replies with the
upload URL and code 0. -/
def get_screen_address (cfg : Settings) (st : CMState) (cid : String)
    (m : DriftMessage) : DispatchOutcome :=
  match lookupA cid st.device_status with
  | none => .reply (errEnvelope m)
  | some _ =>
    let upload_url := "https://" ++ cfg.host ++ "/api/upload/screenshot"
    .reply { type := .S2D_DEVICE_NOTIFY, event := m.event
             deviceId := m.deviceId, playId := m.playId, code := 0
             data := .screen "" m.deviceId upload_url "" }

/-- drift_message_handler.handle_power_off: the source invokes the async
`connectionManager.disconnect(connection_id)` WITHOUT awaiting it, so the
coroutine object is created and discarded and its body never executes —
the registry and the transport are left untouched.  The handler then
returns the code 0 acknowledgement. -/
def handle_power_off (st : CMState) (cid : String) (m : DriftMessage) :
    CMState × DispatchOutcome :=
  (st,
    .reply { type := .S2D_DEVICE_NOTIFY, event := m.event
             deviceId := m.deviceId, playId := m.playId, code := 0
             data := .empty })

/-- drift_message_handler.handle_device_control: route on the event;
unknown device_control events are answered with the code -1 envelope. -/
def handle_device_control (cfg : Settings) (st : CMState) (cid : String)
    (m : DriftMessage) : CMState × DispatchOutcome :=
  if m.event = .GET_RTMP then (st, get_rtmp_address cfg st cid m)
  else if m.event = .GET_SCREEN then (st, get_screen_address cfg st cid m)
  else if m.event = .POWER_OFF then handle_power_off st cid m
  else (st, .reply (errEnvelope m))

/-- drift_message_handler.handle_notify_message: refresh the session's
heartbeat, then route: join is the heartbeat (no reply), device_info is
handled by handle_device_info, and every other event is a control-result
notification which is only logged (no reply). -/
def handle_notify_message (st : CMState) (cid : String) (m : DriftMessage)
    (now : Int) : CMState × DispatchOutcome :=
  let st1 := update_heartbeat st cid now
  if m.event = .JOIN then (st1, .noReply)
  else if m.event = .DEVICE_INFO then handle_device_info st1 cid m
  else (st1, .noReply)

/-- drift_message_handler.handle_device_message: construct the
DriftMessage inside a try block and route on its type; a valid message of
a non-inbound type is answered with the code -1 envelope.  When the
construction itself raises, the except block builds its error envelope
from the local variable `message` — which was never bound — so the
handler raises UnboundLocalError to its caller instead of returning an
envelope. -/
def handle_device_message (cfg : Settings) (now : Int) (st : CMState)
    (cid : String) (raw : RawMessage) : CMState × DispatchOutcome :=
  match parseDriftMessage raw with
  | .ok m =>
    if m.type = .D2S_NOTIFY then handle_notify_message st cid m now
    else if m.type = .D2S_DEVICE_CONTROL then handle_device_control cfg st cid m
    else (st, .reply (errEnvelope m))
  | .error _ => (st, .raised "UnboundLocalError")

/-! ### Lemmas on the dictionary model -/

theorem lookupA_eraseA_self {α : Type} (k : String) (l : List (String × α)) :
    lookupA k (eraseA k l) = none := by
  induction l with
  | nil => rfl
  | cons p rest ih =>
    by_cases h : p.1 = k
    · simpa [eraseA, h] using ih
    · simpa [eraseA, lookupA, h] using ih

theorem lookupA_eraseA_of_ne {α : Type} {d k : String} (h : d ≠ k)
    (l : List (String × α)) : lookupA d (eraseA k l) = lookupA d l := by
  induction l with
  | nil => rfl
  | cons p rest ih =>
    obtain ⟨a, v⟩ := p
    by_cases hk : a = k
    · have hd : ¬a = d := by rw [hk]; exact fun hh => h hh.symm
      simp only [eraseA, lookupA, if_pos hk, if_neg hd]
      exact ih
    · by_cases hd : a = d
      · simp only [eraseA, lookupA, if_neg hk, if_pos hd]
      · simp only [eraseA, lookupA, if_neg hk, if_neg hd]
        exact ih

theorem lookupA_eraseA_none {α : Type} {d : String} (k : String)
    {l : List (String × α)} (h : lookupA d l = none) :
    lookupA d (eraseA k l) = none := by
  by_cases hdk : d = k
  · subst hdk; exact lookupA_eraseA_self d l
  · rw [lookupA_eraseA_of_ne hdk]; exact h

theorem lookupA_insertA_self {α : Type} (k : String) (v : α)
    (l : List (String × α)) : lookupA k (insertA k v l) = some v := by
  simp [insertA, lookupA]

theorem lookupA_insertA_of_ne {α : Type} {d k : String} (h : d ≠ k) (v : α)
    (l : List (String × α)) : lookupA d (insertA k v l) = lookupA d l := by
  have hk : k ≠ d := fun hh => h hh.symm
  simp [insertA, lookupA, hk, lookupA_eraseA_of_ne h]

theorem lookupA_updateA_self {α : Type} (k : String) (f : α → α)
    (l : List (String × α)) :
    lookupA k (updateA k f l) = (lookupA k l).map f := by
  induction l with
  | nil => rfl
  | cons p rest ih =>
    by_cases h : p.1 = k
    · simp [updateA, h, lookupA]
    · simpa [updateA, h, lookupA] using ih

theorem lookupA_updateA_of_ne {α : Type} {d k : String} (h : d ≠ k)
    (f : α → α) (l : List (String × α)) :
    lookupA d (updateA k f l) = lookupA d l := by
  induction l with
  | nil => rfl
  | cons p rest ih =>
    obtain ⟨a, v⟩ := p
    by_cases hk : a = k
    · have hd : ¬a = d := by rw [hk]; exact fun hh => h hh.symm
      simp only [updateA, lookupA, if_pos hk, if_neg hd]
      exact ih
    · by_cases hd : a = d
      · simp only [updateA, lookupA, if_neg hk, if_pos hd]
      · simp only [updateA, lookupA, if_neg hk, if_neg hd]
        exact ih

theorem lookupA_updateA_isSome {α : Type} (d k : String) (f : α → α)
    (l : List (String × α)) :
    (lookupA d (updateA k f l)).isSome = (lookupA d l).isSome := by
  by_cases h : d = k
  · subst h; rw [lookupA_updateA_self]; cases lookupA d l <;> rfl
  · rw [lookupA_updateA_of_ne h]

theorem lookupA_mem {α : Type} {d : String} {v : α} :
    ∀ {l : List (String × α)}, lookupA d l = some v → (d, v) ∈ l := by
  intro l
  induction l with
  | nil => intro h; exact absurd h (by simp [lookupA])
  | cons p rest ih =>
    intro h
    by_cases hd : p.1 = d
    · rw [lookupA, if_pos hd] at h
      have : p = (d, v) := by
        cases p; cases h; simp_all
      simp [this]
    · rw [lookupA, if_neg hd] at h
      exact List.mem_cons_of_mem _ (ih h)

theorem keys_nodup_mem_unique {α : Type} :
    ∀ {l : List (String × α)}, (l.map Prod.fst).Nodup →
      ∀ {d : String} {v1 v2 : α}, (d, v1) ∈ l → (d, v2) ∈ l → v1 = v2 := by
  intro l
  induction l with
  | nil => intro _ d v1 v2 h1; exact absurd h1 (by simp)
  | cons p rest ih =>
    intro hnd d v1 v2 h1 h2
    rw [List.map_cons, List.nodup_cons] at hnd
    rcases List.mem_cons.mp h1 with he1 | hm1
    · rcases List.mem_cons.mp h2 with he2 | hm2
      · rw [← he1] at he2; exact congrArg Prod.snd he2.symm
      · exact absurd (List.mem_map.mpr ⟨(d, v2), hm2, by rw [← he1]⟩) hnd.1
    · rcases List.mem_cons.mp h2 with he2 | hm2
      · exact absurd (List.mem_map.mpr ⟨(d, v1), hm1, by rw [← he2]⟩) hnd.1
      · exact ih hnd.2 hm1 hm2

/-! ### Lemmas on disconnect and the monitor loop -/

theorem disconnect_exn (st : CMState) (cid : String) :
    (disconnect st cid).exn = none := by
  unfold disconnect
  cases lookupA cid st.active_connections <;> rfl

theorem disconnect_active_self (st : CMState) (cid : String) :
    lookupA cid (disconnect st cid).st.active_connections = none := by
  unfold disconnect
  cases h : lookupA cid st.active_connections with
  | some ws => simpa [cleanupConnection] using lookupA_eraseA_self cid _
  | none => simpa using h

theorem disconnect_status_of_active {st : CMState} {cid : String}
    (h : (lookupA cid st.active_connections).isSome) :
    lookupA cid (disconnect st cid).st.device_status = none := by
  unfold disconnect
  cases hl : lookupA cid st.active_connections with
  | some ws => simpa [cleanupConnection] using lookupA_eraseA_self cid _
  | none => rw [hl] at h; exact absurd h (by simp)

theorem disconnect_active_of_ne {d cid : String} (h : d ≠ cid)
    (st : CMState) :
    lookupA d (disconnect st cid).st.active_connections =
      lookupA d st.active_connections := by
  unfold disconnect
  cases lookupA cid st.active_connections with
  | some ws => simpa [cleanupConnection] using lookupA_eraseA_of_ne h _
  | none => rfl

theorem disconnect_status_of_ne {d cid : String} (h : d ≠ cid)
    (st : CMState) :
    lookupA d (disconnect st cid).st.device_status =
      lookupA d st.device_status := by
  unfold disconnect
  cases lookupA cid st.active_connections with
  | some ws => simpa [cleanupConnection] using lookupA_eraseA_of_ne h _
  | none => rfl

theorem disconnect_active_none {d : String} (cid : String) {st : CMState}
    (h : lookupA d st.active_connections = none) :
    lookupA d (disconnect st cid).st.active_connections = none := by
  unfold disconnect
  cases lookupA cid st.active_connections with
  | some ws => simpa [cleanupConnection] using lookupA_eraseA_none cid h
  | none => exact h

theorem evictLoop_exn : ∀ (L : List String) (st : CMState),
    (evictLoop st L).2 = none := by
  intro L
  induction L with
  | nil => intro st; rfl
  | cons d rest ih =>
    intro st
    simp only [evictLoop, disconnect_exn]
    exact ih _

theorem evictLoop_active_none : ∀ (L : List String) {st : CMState}
    {d : String}, lookupA d st.active_connections = none →
    lookupA d (evictLoop st L).1.active_connections = none := by
  intro L
  induction L with
  | nil => intro st d h; exact h
  | cons k rest ih =>
    intro st d h
    simp only [evictLoop, disconnect_exn]
    exact ih (disconnect_active_none k h)

theorem evictLoop_mem_active : ∀ (L : List String) (st : CMState)
    {d : String}, d ∈ L →
    lookupA d (evictLoop st L).1.active_connections = none := by
  intro L
  induction L with
  | nil => intro st d h; exact absurd h (by simp)
  | cons k rest ih =>
    intro st d h
    simp only [evictLoop, disconnect_exn]
    by_cases hdk : d = k
    · subst hdk
      exact evictLoop_active_none rest (disconnect_active_self st d)
    · rcases List.mem_cons.mp h with he | hm
      · exact absurd he hdk
      · exact ih _ hm

theorem evictLoop_status_not_mem : ∀ (L : List String) {st : CMState}
    {d : String}, d ∉ L →
    lookupA d (evictLoop st L).1.device_status =
      lookupA d st.device_status := by
  intro L
  induction L with
  | nil => intro st d _; rfl
  | cons k rest ih =>
    intro st d h
    have hdk : d ≠ k := fun he => h (he ▸ List.mem_cons_self k rest)
    have hrest : d ∉ rest := fun hm => h (List.mem_cons_of_mem k hm)
    simp only [evictLoop, disconnect_exn]
    rw [ih hrest, disconnect_status_of_ne hdk]

theorem evictLoop_status_mem : ∀ (L : List String) {st : CMState}
    {d : String}, L.Nodup → d ∈ L →
    (lookupA d st.active_connections).isSome →
    lookupA d (evictLoop st L).1.device_status = none := by
  intro L
  induction L with
  | nil => intro st d _ h; exact absurd h (by simp)
  | cons k rest ih =>
    intro st d hnd h hact
    rw [List.nodup_cons] at hnd
    simp only [evictLoop, disconnect_exn]
    by_cases hdk : d = k
    · subst hdk
      rw [evictLoop_status_not_mem rest hnd.1]
      exact disconnect_status_of_active hact
    · rcases List.mem_cons.mp h with he | hm
      · exact absurd he hdk
      · have : (lookupA d (disconnect st k).st.active_connections).isSome := by
          rw [disconnect_active_of_ne hdk]; exact hact
        exact ih hnd.2 hm this

theorem mem_collectTimeouts {cfg : Settings} {now : Int} :
    ∀ {l : List (String × DeviceStatusR)} {d : String},
      d ∈ collectTimeouts cfg now l ↔
        ∃ ds, (d, ds) ∈ l ∧ now - ds.last_heartbeat > cfg.heartbeat_timeout := by
  intro l
  induction l with
  | nil => intro d; simp [collectTimeouts]
  | cons p rest ih =>
    intro d
    obtain ⟨a, ds0⟩ := p
    by_cases hp : now - ds0.last_heartbeat > cfg.heartbeat_timeout
    · simp only [collectTimeouts, if_pos hp, List.mem_cons]
      constructor
      · rintro (he | hm)
        · exact ⟨ds0, Or.inl (by rw [he]), hp⟩
        · obtain ⟨ds, hmem, hgt⟩ := ih.mp hm
          exact ⟨ds, Or.inr hmem, hgt⟩
      · rintro ⟨ds, he | hm, hgt⟩
        · exact Or.inl (congrArg Prod.fst he)
        · exact Or.inr (ih.mpr ⟨ds, hm, hgt⟩)
    · simp only [collectTimeouts, if_neg hp, List.mem_cons]
      constructor
      · intro hm
        obtain ⟨ds, hmem, hgt⟩ := ih.mp hm
        exact ⟨ds, Or.inr hmem, hgt⟩
      · rintro ⟨ds, he | hm, hgt⟩
        · have h1 : ds = ds0 := congrArg Prod.snd he
          exact absurd (h1 ▸ hgt) hp
        · exact ih.mpr ⟨ds, hm, hgt⟩

theorem collectTimeouts_sublist (cfg : Settings) (now : Int) :
    ∀ l : List (String × DeviceStatusR),
      (collectTimeouts cfg now l).Sublist (l.map Prod.fst) := by
  intro l
  induction l with
  | nil => exact List.Sublist.refl _
  | cons p rest ih =>
    by_cases hp : now - p.2.last_heartbeat > cfg.heartbeat_timeout
    · simp only [collectTimeouts, if_pos hp, List.map_cons]
      exact ih.cons₂ p.1
    · simp only [collectTimeouts, if_neg hp, List.map_cons]
      exact ih.cons p.1

theorem collectTimeouts_nodup {cfg : Settings} {now : Int}
    {l : List (String × DeviceStatusR)} (hnd : (l.map Prod.fst).Nodup) :
    (collectTimeouts cfg now l).Nodup :=
  (collectTimeouts_sublist cfg now l).nodup hnd

/-! ### The registry-keys invariant -/

/-- The keys of the `active_connections` dict and of the `device_status`
dict coincide. -/
def keysEq (st : CMState) : Prop :=
  ∀ k : String, (lookupA k st.active_connections).isSome =
    (lookupA k st.device_status).isSome

theorem keysEq_cleanup {st : CMState} (h : keysEq st) (cid : String) :
    keysEq (cleanupConnection st cid) := by
  intro k
  by_cases hk : k = cid
  · subst hk
    simp [cleanupConnection, lookupA_eraseA_self]
  · simp [cleanupConnection, lookupA_eraseA_of_ne hk, h k]

theorem keysEq_disconnect {st : CMState} (h : keysEq st) (cid : String) :
    keysEq (disconnect st cid).st := by
  unfold disconnect
  cases hl : lookupA cid st.active_connections with
  | some ws => exact keysEq_cleanup h cid
  | none => exact h

theorem keysEq_send {st : CMState} (h : keysEq st) (cid : String) :
    keysEq (send_message st cid).1 := by
  unfold send_message
  cases hl : lookupA cid st.active_connections with
  | some ws =>
    by_cases hf : ws.sendFails
    · simp only [if_pos hf]
      exact keysEq_disconnect h cid
    · simp only [if_neg hf]
      exact h
  | none => exact h

theorem keysEq_connect {st : CMState} (h : keysEq st) (ws : WS)
    (d : String) (now : Int) : keysEq (connect st ws d now) := by
  have h1 : keysEq
      { active_connections := insertA d ws st.active_connections
        device_status :=
          insertA d
            { device_id := d, device_info := none
              connection_time := now, last_heartbeat := now }
            st.device_status } := by
    intro k
    by_cases hk : k = d
    · subst hk
      simp [lookupA_insertA_self]
    · simp only [lookupA_insertA_of_ne hk]
      exact h k
  exact keysEq_send h1 d

theorem keysEq_update_heartbeat {st : CMState} (h : keysEq st)
    (cid : String) (now : Int) : keysEq (update_heartbeat st cid now) := by
  unfold update_heartbeat
  cases hl : lookupA cid st.device_status with
  | some ds =>
    intro k
    exact (h k).trans (lookupA_updateA_isSome k cid _ st.device_status).symm
  | none => exact h

theorem keysEq_update_device_info {st : CMState} (h : keysEq st)
    (cid : String) (info : DeviceInfo) :
    keysEq (update_device_info st cid info) := by
  unfold update_device_info
  cases hl : lookupA cid st.device_status with
  | some ds =>
    intro k
    exact (h k).trans (lookupA_updateA_isSome k cid _ st.device_status).symm
  | none => exact h

/-- When the session key is absent from active_connections, disconnect is
a complete no-op: unchanged state, no close, no exception. -/
theorem disconnect_noop {st : CMState} {cid : String}
    (h : lookupA cid st.active_connections = none) :
    disconnect st cid = { st := st, closeIssued := false, exn := none } := by
  unfold disconnect
  rw [h]

/-! ### Concrete fixtures used by the claim theorems and witnesses -/

/-- A concrete settings value (host and port are required fields of the
source Settings; the other fields keep the config.py defaults). -/
def cfg0 : Settings :=
  { video_rtmp_host := "media.example.com", video_rtmp_port := 1935 }

/-- A 32-character device id, as the protocol requires. -/
def did0 : String := "0123456789abcdef0123456789abcdef"

/-- A registry holding one registered session for did0 that has not yet
reported any device_info. -/
def stReg : CMState :=
  { active_connections := [(did0, {})]
    device_status :=
      [(did0, { device_id := did0, connection_time := 100
                last_heartbeat := 100 })] }

/-- The raw get_rtmp request of the spec scenario. -/
def rawGetRtmp : RawMessage :=
  { type? := some "device_control", event? := some "get_rtmp"
    deviceId := did0 }

/-- The raw power_off request. -/
def rawPowerOff : RawMessage :=
  { type? := some "device_control", event? := some "power_off"
    deviceId := did0 }

/-! ### Claim theorems -/

/-- C1: the claim says every failed dispatch yields a well-formed reply
envelope and no raw exception ever escapes handle_device_message.  The
code violates this for the malformed-payload class: on an inbound object
with no type and event discriminators, DriftMessage construction raises,
and the except block then reads the local variable `message`, which was
never bound, so handle_device_message raises UnboundLocalError to the
transport loop instead of returning an envelope. -/
theorem malformed_message_raises_unbound_local :
    handle_device_message cfg0 0 initState did0 {} =
      (initState, .raised "UnboundLocalError") := rfl

/-- C2: the claim says a get_rtmp request on a registered session with no
prior device_info report is answered with code 0 and the default stream
parameters.  The code instead raises ValueError (get_device_info returns
none because the session has no stored info), and the except block turns
this into a code -1 failure envelope; the inline default fallbacks in
get_rtmp_address are unreachable. -/
theorem get_rtmp_without_device_info_returns_failure :
    handle_device_message cfg0 200 stReg did0 rawGetRtmp =
      (stReg,
        .reply { type := .S2D_MESSAGE, event := .GET_RTMP, deviceId := did0
                 playId := "", code := -1, data := .empty }) := rfl

/-- C3 counterexample: the claim says a device_info payload with
stream_bitrate 4000001 is rejected with a ValidationError.  models.py
declares no validator and no Field constraint on DeviceInfo, so the
payload is accepted. -/
theorem device_info_accepts_bitrate_above_ceiling :
    parseDeviceInfo { stream_bitrate? := some 4000001 } =
      .ok { stream_bitrate := 4000001 } := rfl

/-- C3 amended: stream_bitrate 4000000 is accepted, and so is 4000001
and every other integer value — DeviceInfo construction performs no
bitrate validation at all; the reported value (or the 2000000 default) is
stored unchanged. -/
theorem device_info_no_bitrate_validation (r : RawDeviceInfo) :
    ∃ info : DeviceInfo, parseDeviceInfo r = .ok info ∧
      info.stream_bitrate = r.stream_bitrate?.getD 2000000 :=
  ⟨_, rfl, rfl⟩

/-- C4: for a non-empty deviceId, the validator rejects exactly the
values whose length differs from 32 and accepts those of length 32. -/
theorem device_id_length_check (v : String) (hne : v ≠ "") :
    (v.length ≠ 32 →
      validate_device_id v = .error "device id must be a 32 char string") ∧
    (v.length = 32 → validate_device_id v = .ok v) := by
  constructor
  · intro hlen
    unfold validate_device_id
    rw [if_pos ⟨hne, hlen⟩]
  · intro hlen
    unfold validate_device_id
    rw [if_neg (fun hc => hc.2 hlen)]

theorem device_id_length_check_witness :
    validate_device_id did0 = .ok did0 ∧
      validate_device_id "short" =
        .error "device id must be a 32 char string" :=
  ⟨(device_id_length_check did0 (by decide)).2 (by decide),
   (device_id_length_check "short" (by decide)).1 (by decide)⟩

/-- C5: on a monitor tick with timeout threshold 180, a registered
session whose heartbeat lies 181 seconds in the past is marked for
eviction (and, when its transport is registered, actually evicted by the
end of the tick), while one 179 seconds in the past is neither marked nor
touched; and the marked list is exactly the scan of the pre-tick state,
evicted only after the scan has completed. -/
theorem heartbeat_timeout_boundary (cfg : Settings) (now : Int)
    (st : CMState) (d : String) (ds : DeviceStatusR)
    (hto : cfg.heartbeat_timeout = 180)
    (hnd : (st.device_status.map Prod.fst).Nodup)
    (hmem : lookupA d st.device_status = some ds) :
    ((now - ds.last_heartbeat = 181 →
        d ∈ (monitorTick cfg now st).marked ∧
        ((lookupA d st.active_connections).isSome = true →
          lookupA d (monitorTick cfg now st).st.device_status = none)) ∧
      (now - ds.last_heartbeat = 179 →
        d ∉ (monitorTick cfg now st).marked ∧
        lookupA d (monitorTick cfg now st).st.device_status =
          lookupA d st.device_status)) ∧
    (monitorTick cfg now st).marked =
      collectTimeouts cfg now st.device_status := by
  refine ⟨⟨fun h181 => ?_, fun h179 => ?_⟩, rfl⟩
  · have hgt : now - ds.last_heartbeat > cfg.heartbeat_timeout := by
      rw [hto, h181]; decide
    have hmark : d ∈ collectTimeouts cfg now st.device_status :=
      mem_collectTimeouts.mpr ⟨ds, lookupA_mem hmem, hgt⟩
    refine ⟨hmark, fun hact => ?_⟩
    exact evictLoop_status_mem _ (collectTimeouts_nodup hnd) hmark hact
  · have hnm : d ∉ collectTimeouts cfg now st.device_status := by
      intro hmark
      obtain ⟨ds2, hm2, hgt⟩ := mem_collectTimeouts.mp hmark
      have he : ds2 = ds := keys_nodup_mem_unique hnd hm2 (lookupA_mem hmem)
      rw [he, h179, hto] at hgt
      exact absurd hgt (by decide)
    exact ⟨hnm, evictLoop_status_not_mem _ hnm⟩

/-- Registry used by the C5 witness: dev1 heartbeat 181 seconds old,
dev2 heartbeat 179 seconds old, at now = 1000. -/
def stMon : CMState :=
  { active_connections := [("dev1", {}), ("dev2", {})]
    device_status :=
      [("dev1", { device_id := "dev1", connection_time := 0
                  last_heartbeat := 819 }),
       ("dev2", { device_id := "dev2", connection_time := 0
                  last_heartbeat := 821 })] }

theorem heartbeat_timeout_boundary_witness :
    ("dev1" ∈ (monitorTick cfg0 1000 stMon).marked ∧
      lookupA "dev1" (monitorTick cfg0 1000 stMon).st.device_status = none) ∧
    ("dev2" ∉ (monitorTick cfg0 1000 stMon).marked ∧
      lookupA "dev2" (monitorTick cfg0 1000 stMon).st.device_status =
        lookupA "dev2" stMon.device_status) := by
  constructor
  · have h := (heartbeat_timeout_boundary cfg0 1000 stMon "dev1"
      { device_id := "dev1", connection_time := 0, last_heartbeat := 819 }
      rfl (by decide) rfl).1.1 (by decide)
    exact ⟨h.1, h.2 (by decide)⟩
  · exact (heartbeat_timeout_boundary cfg0 1000 stMon "dev2"
      { device_id := "dev2", connection_time := 0, last_heartbeat := 821 }
      rfl (by decide) rfl).1.2 (by decide)

/-- C6: no exception escapes a monitor tick — the only fallible
per-session operation, the transport close, is caught inside disconnect —
and every session marked during the scan has its eviction executed, so a
failure while processing one session never aborts the processing of the
remaining sessions nor terminates the monitor loop.  The state quantifies
over every combination of per-transport close-failure behaviour. -/
theorem monitor_tick_isolates_failures (cfg : Settings) (now : Int)
    (st : CMState) :
    (monitorTick cfg now st).exn = none ∧
    ∀ d, d ∈ (monitorTick cfg now st).marked →
      lookupA d (monitorTick cfg now st).st.active_connections = none := by
  refine ⟨evictLoop_exn _ st, fun d hd => ?_⟩
  exact evictLoop_mem_active _ st hd

/-- Registry used by the C6 witness: two timed-out sessions; the close of
the first one raises. -/
def stFail : CMState :=
  { active_connections :=
      [("bad", { closeFails := true }), ("good", {})]
    device_status :=
      [("bad", { device_id := "bad", last_heartbeat := 0 }),
       ("good", { device_id := "good", last_heartbeat := 0 })] }

theorem monitor_tick_isolates_failures_witness :
    (monitorTick cfg0 1000 stFail).exn = none ∧
      lookupA "good"
        (monitorTick cfg0 1000 stFail).st.active_connections = none :=
  ⟨(monitor_tick_isolates_failures cfg0 1000 stFail).1,
   (monitor_tick_isolates_failures cfg0 1000 stFail).2 "good" (by decide)⟩

/-- C7: the claim says a power_off request tears the session down through
the disconnect path (registry removal plus transport close) and returns a
code 0 ack.  The code returns the ack but never executes the teardown:
the async disconnect call is not awaited, so the session is still
registered afterwards and its transport is still open. -/
theorem power_off_leaves_session_registered :
    handle_device_message cfg0 200 stReg did0 rawPowerOff =
      (stReg,
        .reply { type := .S2D_DEVICE_NOTIFY, event := .POWER_OFF
                 deviceId := did0, playId := "", code := 0
                 data := .empty }) ∧
    lookupA did0
        (handle_device_message cfg0 200 stReg did0 rawPowerOff).1.active_connections =
      some {} :=
  ⟨rfl, rfl⟩

/-- C8: a device_info notify with a valid payload on a registered session
replaces the session's stored deviceInfo wholesale with the reported
snapshot and is answered with a device_notify ack of code 0 echoing the
triggering deviceId and playId. -/
theorem device_info_notify_replaces_and_acks (st : CMState) (cid : String)
    (m : DriftMessage) (ds : DeviceStatusR) (info : DeviceInfo)
    (hmem : lookupA cid st.device_status = some ds)
    (hparse : parseDeviceInfo m.data = .ok info) :
    lookupA cid (handle_device_info st cid m).1.device_status =
      some { ds with device_info := some info } ∧
    (handle_device_info st cid m).2 =
      .reply { type := .S2D_DEVICE_NOTIFY, event := m.event
               deviceId := m.deviceId, playId := m.playId, code := 0
               data := .empty } := by
  unfold handle_device_info
  rw [hparse]
  refine ⟨?_, rfl⟩
  show lookupA cid (update_device_info st cid info).device_status = _
  unfold update_device_info
  rw [hmem]
  show lookupA cid (updateA cid _ st.device_status) = _
  rw [lookupA_updateA_self, hmem]
  rfl

/-- The device_info payload of the spec scenario. -/
def rawInfo1080 : RawDeviceInfo :=
  { no? := some "SN1", stream_res? := some "1080P" }

/-- The validated device_info notify of the spec scenario. -/
def msgInfo : DriftMessage :=
  { type := .D2S_NOTIFY, event := .DEVICE_INFO, deviceId := did0
    data := rawInfo1080 }

theorem device_info_notify_replaces_and_acks_witness :
    lookupA did0 (handle_device_info stReg did0 msgInfo).1.device_status =
      some { device_id := did0, connection_time := 100, last_heartbeat := 100
             device_info := some { no := "SN1", stream_res := "1080P" } } ∧
    (handle_device_info stReg did0 msgInfo).2 =
      .reply { type := .S2D_DEVICE_NOTIFY, event := .DEVICE_INFO
               deviceId := did0, playId := "", code := 0, data := .empty } :=
  device_info_notify_replaces_and_acks stReg did0 msgInfo
    { device_id := did0, connection_time := 100, last_heartbeat := 100 }
    { no := "SN1", stream_res := "1080P" } rfl rfl

/-- C9: disconnect is idempotent — a second disconnect of the same key
finds it gone from active_connections, skips the whole body, and returns
with the state unchanged, no transport close issued and no exception. -/
theorem disconnect_idempotent (st : CMState) (cid : String) :
    disconnect (disconnect st cid).st cid =
      { st := (disconnect st cid).st, closeIssued := false, exn := none } :=
  disconnect_noop (disconnect_active_self st cid)

/-- C10: the keys of active_connections and device_status coincide in the
initial state and this invariant is preserved by connect, disconnect,
_cleanup_connection, update_heartbeat, update_device_info and
send_message (including their internal failure paths). -/
theorem registry_keys_invariant :
    keysEq initState ∧
    (∀ (st : CMState) (ws : WS) (d : String) (now : Int),
      keysEq st → keysEq (connect st ws d now)) ∧
    (∀ (st : CMState) (cid : String),
      keysEq st → keysEq (disconnect st cid).st) ∧
    (∀ (st : CMState) (cid : String),
      keysEq st → keysEq (cleanupConnection st cid)) ∧
    (∀ (st : CMState) (cid : String) (now : Int),
      keysEq st → keysEq (update_heartbeat st cid now)) ∧
    (∀ (st : CMState) (cid : String) (info : DeviceInfo),
      keysEq st → keysEq (update_device_info st cid info)) ∧
    (∀ (st : CMState) (cid : String),
      keysEq st → keysEq (send_message st cid).1) :=
  ⟨fun _ => rfl,
   fun _ ws d now h => keysEq_connect h ws d now,
   fun _ cid h => keysEq_disconnect h cid,
   fun _ cid h => keysEq_cleanup h cid,
   fun _ cid now h => keysEq_update_heartbeat h cid now,
   fun _ cid info h => keysEq_update_device_info h cid info,
   fun _ cid h => keysEq_send h cid⟩

theorem registry_keys_invariant_witness :
    (lookupA "dev9" (connect initState {} "dev9" 5).active_connections).isSome =
      (lookupA "dev9" (connect initState {} "dev9" 5).device_status).isSome :=
  registry_keys_invariant.2.1 initState {} "dev9" 5 (fun _ => rfl) "dev9"

end DriftWss
